import Mathlib

/-!
Verification development for the escrow/reconciliation engine in `main.py`.

The Python program is shallowly embedded: JSON values parsed from the
provider are modelled by `JsonV` (Python's `json.loads` maps JSON `null`
to `None`, and every use in the source treats a `null` field exactly like
a missing one, so lookups return `Option JsonV` with `none` covering
both); amounts are exact rationals (the source stores Python floats; no
claim under study depends on binary rounding); a code path that raises
and is caught by a `try/except` which drops the record is modelled by
returning `none`.
-/

set_option autoImplicit false

/-- A parsed JSON value as Python's `json` module delivers it (minus
`null`, which Python maps to `None`; see the module comment). Object
fields are kept in insertion order, as Python dicts do. -/
inductive JsonV where
  | bool (b : Bool)
  | num (q : Rat)
  | str (s : String)
  | arr (l : List JsonV)
  | obj (l : List (String × JsonV))

/-- First value bound to `k`, i.e. Python `d.get(k)` / `d[k]` on a dict. -/
def getKey (l : List (String × JsonV)) (k : String) : Option JsonV :=
  match l with
  | [] => none
  | (k', v) :: rest => if k' = k then some v else getKey rest k

/-- Python truthiness of a JSON value: `0`, `""`, `[]`, `{}` and `False`
are falsy, everything else truthy. -/
def truthy : JsonV → Bool
  | JsonV.bool b => b
  | JsonV.num q => q ≠ 0
  | JsonV.str s => s ≠ ""
  | JsonV.arr l => !l.isEmpty
  | JsonV.obj l => !l.isEmpty

/-- Truthiness of a possibly-absent value (`None` is falsy). -/
def truthyOpt : Option JsonV → Bool
  | none => false
  | some v => truthy v

/-- Python `a or b` on possibly-absent values: `b` when `a` is falsy or
absent, else `a`. -/
def pyOr (a b : Option JsonV) : Option JsonV :=
  if truthyOpt a then a else b

/-- Left-to-right Python `or` chain; an empty chain is `None`. -/
def pyOrs (l : List (Option JsonV)) : Option JsonV :=
  match l with
  | [] => none
  | a :: rest => pyOr a (pyOrs rest)

/-- Parse an unsigned run of decimal digits, returning the value and the
rest of the input; `none` when the input does not start with a digit. -/
def parseDigits : List Char → Option (Nat × List Char)
  | [] => none
  | c :: rest =>
    if c.isDigit then
      match parseDigits rest with
      | some (n, rest') => some (c.toNat - 48 + 10 * n, rest')
      | none => some (c.toNat - 48, rest)
    else none

/-- Digits folded most-significant first starting from `acc`. -/
def foldDigits (acc : Nat) : List Char → Nat × List Char
  | [] => (acc, [])
  | c :: rest =>
    if c.isDigit then foldDigits (acc * 10 + (c.toNat - 48)) rest
    else (acc, c :: rest)

/-- Number of leading digits. -/
def countDigits : List Char → Nat
  | [] => 0
  | c :: rest => if c.isDigit then countDigits rest + 1 else 0

/-- Parse `digits[.digits][e|E[+|-]digits]` (no sign) as an exact rational.
Models Python `float(...)` on the decimal literals providers actually
send; exotic forms (`inf`, `nan`, padding) are treated as failures. -/
def parseUnsignedFloat (cs : List Char) : Option Rat :=
  match cs with
  | [] => none
  | c :: _ =>
    if !c.isDigit then none else
    let (ip, rest1) := foldDigits 0 cs
    let (frac, rest2) :=
      match rest1 with
      | '.' :: fs =>
        if countDigits fs = 0 then ((0 : Rat), ('.' : Char) :: fs)
        else
          let n := countDigits fs
          let (fv, fr) := foldDigits 0 fs
          (((fv : Rat) / ((10 : Rat) ^ n)), fr)
      | _ => ((0 : Rat), rest1)
    let base : Rat := (ip : Rat) + frac
    match rest2 with
    | [] => some base
    | 'e' :: es => parseExponent base es
    | 'E' :: es => parseExponent base es
    | _ => none
where
  /-- Apply an `e`-suffix exponent `[+|-]digits` to `base`. -/
  parseExponent (base : Rat) (es : List Char) : Option Rat :=
    match es with
    | '+' :: ds => parseExpDigits base false ds
    | '-' :: ds => parseExpDigits base true ds
    | ds => parseExpDigits base false ds
  /-- The digits of an exponent; fails on an empty or non-digit tail. -/
  parseExpDigits (base : Rat) (neg : Bool) (ds : List Char) : Option Rat :=
    match ds with
    | [] => none
    | c :: _ =>
      if !c.isDigit then none else
      let (ev, rest) := foldDigits 0 ds
      if rest.isEmpty then
        some (if neg then base / ((10 : Rat) ^ ev) else base * ((10 : Rat) ^ ev))
      else none

/-- Python `float(v)` on a JSON value: numbers pass through, booleans
become 0/1, decimal strings are parsed; anything else raises (`none`). -/
def pyFloat : JsonV → Option Rat
  | JsonV.num q => some q
  | JsonV.bool b => some (if b then 1 else 0)
  | JsonV.str s =>
    match s.toList with
    | '-' :: rest => (parseUnsignedFloat rest).map (fun q => -q)
    | '+' :: rest => parseUnsignedFloat rest
    | cs => parseUnsignedFloat cs
  | _ => none

/-- Python `int(v)` on a JSON value: numbers truncate toward zero,
booleans become 0/1, integer-literal strings parse; anything else raises
(`none`). -/
def pyInt : JsonV → Option Int
  | JsonV.num q => some (if q ≥ 0 then q.floor else q.ceil)
  | JsonV.bool b => some (if b then 1 else 0)
  | JsonV.str s =>
    match s.toList with
    | '-' :: rest => (parseDigitsOnly rest).map (fun n => -(n : Int))
    | '+' :: rest => (parseDigitsOnly rest).map (fun n => (n : Int))
    | cs => (parseDigitsOnly cs).map (fun n => (n : Int))
  | _ => none
where
  /-- A nonempty all-digit string, else failure. -/
  parseDigitsOnly (cs : List Char) : Option Nat :=
    match cs with
    | [] => none
    | c :: _ =>
      if !c.isDigit then none else
      let (v, rest) := foldDigits 0 cs
      if rest.isEmpty then some v else none

/-- Python `str(v)` for the scalar shapes a transaction id actually takes;
container renderings are abbreviated (no claim depends on them). -/
def pyStr : JsonV → String
  | JsonV.str s => s
  | JsonV.num q => if q.den = 1 then toString q.num else toString q
  | JsonV.bool b => if b then "True" else "False"
  | JsonV.arr _ => "<list>"
  | JsonV.obj _ => "<dict>"

/-- The normalized transaction shape built by
`fetch_transactions_for_address` (`main.py` lines 283–291): the dict
`{"hash", "from", "to", "amount", "message", "unix_time", "raw"}`. The
`raw` field (diagnostics only) is not modelled. -/
structure Tx where
  hash : Option String
  sender : Option JsonV
  recipient : Option JsonV
  amount : Option Rat
  message : Option JsonV
  unix_time : Option Int

/-- Amount normalization (`main.py` lines 273–282):
`float(amt)` with, on failure, the fallback
`float((amt or {}).get("amount", 0))`; a second failure yields `None`.
Note that no unit-scale division appears anywhere in this path. -/
def amountVal (amt : Option JsonV) : Option Rat :=
  match amt with
  | none => none
  | some v =>
    match pyFloat v with
    | some q => some q
    | none =>
      match (if truthy v then v else JsonV.obj []) with
      | JsonV.obj fields =>
        match getKey fields "amount" with
        | some w => pyFloat w
        | none => some 0
      | _ => none

/-- One record of the normalizer loop (`main.py` lines 246–294). `none`
models the `except Exception: continue` path: a non-dict record (every
`.get` raises), a non-dict first `out_msgs` element, or a truthy
`unix_time` that `int(...)` cannot convert. A dict record in which no id
field is found is NOT dropped: it is emitted with `hash = none`. -/
def normalizeRecord (it : JsonV) : Option Tx :=
  match it with
  | JsonV.obj f =>
    let txHash := pyOrs [getKey f "hash", getKey f "utime", getKey f "lt",
                         getKey f "id", getKey f "transaction_id"]
    let step1 : Option (Option JsonV × Option JsonV) :=
      match getKey f "in_msg" with
      | some (JsonV.obj im) =>
        some (pyOr (getKey im "source") (getKey im "from"), getKey im "value")
      | _ =>
        some (pyOr (pyOr (getKey f "src") (getKey f "source")) (getKey f "from"),
              pyOr (getKey f "value") (getKey f "amount"))
    match step1 with
    | none => none
    | some (sender, amt0) =>
      let step2 : Option (Option JsonV × Option JsonV) :=
        match getKey f "out_msgs" with
        | some (JsonV.arr (o :: _)) =>
          match o with
          | JsonV.obj om =>
            some (pyOr (pyOr (getKey om "destination") (getKey om "to")) none,
                  if amt0.isNone then pyOr (getKey om "value") (getKey om "amount")
                  else amt0)
          | _ => none
        | _ => some (none, amt0)
      match step2 with
      | none => none
      | some (recipient, amt) =>
        let msgA :=
          match getKey f "in_msg" with
          | some (JsonV.obj im) =>
            pyOrs [getKey im "text", getKey im "message", getKey im "comment"]
          | _ => none
        let msg :=
          if truthyOpt msgA then msgA
          else pyOrs [getKey f "comment", getKey f "message",
                      getKey f "body", getKey f "payload"]
        let ut0 := pyOrs [getKey f "utime", getKey f "time", getKey f "unix_time"]
        let ut := if truthyOpt ut0 then ut0 else none
        match ut with
        | some v =>
          match pyInt v with
          | some i =>
            some { hash := txHash.map pyStr, sender := sender,
                   recipient := recipient, amount := amountVal amt,
                   message := msg, unix_time := some i }
          | none => none
        | none =>
          some { hash := txHash.map pyStr, sender := sender,
                 recipient := recipient, amount := amountVal amt,
                 message := msg, unix_time := none }
  | _ => none

/-- First list-valued field, in dict order: the
`for k,v in data.items(): if isinstance(v, list): items = v; break`
fallback (`main.py` lines 240–244). -/
def firstListValue : List (String × JsonV) → List JsonV
  | [] => []
  | (_, JsonV.arr l) :: _ => l
  | _ :: rest => firstListValue rest

/-- Envelope probing (`main.py` lines 230–244): a dict's `"result"` list,
else its `"transactions"` list, else a top-level list, else the first
list-valued field of a dict, else nothing. -/
def extractItems (data : JsonV) : List JsonV :=
  match data with
  | JsonV.arr l => l
  | JsonV.obj fields =>
    match getKey fields "result" with
    | some (JsonV.arr l) => l
    | _ =>
      match getKey fields "transactions" with
      | some (JsonV.arr l) => l
      | _ => firstListValue fields
  | _ => []

/-- Modelled from the spec: probe "a top-level list, a list under a
`result` key, or a list under a provider-specific named key — probing in
that order and using the first list found" (§4.1). Used only to compare
against `extractItems`, the code's probe. -/
def specEnvelopeProbe (data : JsonV) : Option (List JsonV) :=
  match data with
  | JsonV.arr l => some l
  | JsonV.obj fields =>
    match getKey fields "result" with
    | some (JsonV.arr l) => some l
    | _ =>
      match getKey fields "transactions" with
      | some (JsonV.arr l) => some l
      | _ => none
  | _ => none

/-- Outcome of the HTTP exchange in `fetch_transactions_for_address`:
either the request raised (network error / timeout), or a response
arrived with a status and a body that `resp.json()` either parses
(`some`) or fails on (`none`). -/
inductive FetchOutcome where
  | netError
  | response (status : Nat) (body : Option JsonV)

/-- `fetch_transactions_for_address` (`main.py` lines 202–296) after the
HTTP exchange. A raised request or an unparsable body yields `[]` (lines
217–228); note the status code is otherwise ignored: a non-200 response
whose body parses falls through to normal processing (lines 219–226). -/
def fetch_transactions_for_address (outcome : FetchOutcome) : List Tx :=
  match outcome with
  | FetchOutcome.netError => []
  | FetchOutcome.response _ none => []
  | FetchOutcome.response _ (some data) =>
    (extractItems data).filterMap normalizeRecord

/-- Python `needle in haystack` prefix step on character lists. -/
def isPrefixChars : List Char → List Char → Bool
  | [], _ => true
  | _ :: _, [] => false
  | a :: as, b :: bs => a = b && isPrefixChars as bs

/-- Python `needle in haystack` on character lists. -/
def containsChars (needle : List Char) : List Char → Bool
  | [] => needle.isEmpty
  | b :: rest => isPrefixChars needle (b :: rest) || containsChars needle rest

/-- Python substring test `needle in hay`. -/
def containsSubstr (hay needle : String) : Bool :=
  containsChars needle.toList hay.toList

/-- Tier 1 of `check_payment_for_deal` (`main.py` lines 315–325): the
memo match `isinstance(msg, str) and deal["id"] in msg`. Amount and
timestamp play no part. (The `bytes` decode branch is dead on this fetch
path: `json.loads` never yields bytes.) -/
def memoHit (dealId : String) (tx : Tx) : Bool :=
  match tx.message with
  | some (JsonV.str s) => containsSubstr s dealId
  | _ => false

/-- Tier 2 (`main.py` lines 328–335): amount present and `≥` the deal
amount, and `tx_time = unix_time or 0` truthy (nonzero) and
`≥ created_unix`. -/
def amountTimeHit (dealAmount : Rat) (createdUnix : Int) (tx : Tx) : Bool :=
  match tx.amount with
  | some a => a ≥ dealAmount && tx.unix_time.getD 0 ≠ 0
      && tx.unix_time.getD 0 ≥ createdUnix
  | none => false

/-- Tier 3 (`main.py` lines 338–344): amount present and `≥` the deal
amount, time ignored. -/
def amountHit (dealAmount : Rat) (tx : Tx) : Bool :=
  match tx.amount with
  | some a => a ≥ dealAmount
  | none => false

/-- `check_payment_for_deal` (`main.py` lines 298–346) after the fetch:
the tiered scan over normalized transactions, first hit wins, memo tier
first, then amount+time, then amount only. `createdUnix` is the result
of parsing `deal["created_at"]` with the standard library (0 when the
parse raises); that stdlib parse is abstracted as this argument. -/
def check_payment_match (dealId : String) (dealAmount : Rat)
    (createdUnix : Int) (txs : List Tx) : Option Tx :=
  match txs.find? (memoHit dealId) with
  | some tx => some tx
  | none =>
    match txs.find? (amountTimeHit dealAmount createdUnix) with
    | some tx => some tx
    | none => txs.find? (amountHit dealAmount)

/-- A row of the `deals` table (`main.py` lines 51–67). -/
structure Deal where
  id : String
  creator_id : Int
  wallet : String
  amount : Rat
  description : String
  memo : String
  status : String
  created_at : String
  paid_tx : Option String
  buyer_id : Option Int
  nft_received : Bool
  seller_received : Bool
  completed_at : Option String
deriving DecidableEq

/-- The mutable store: the `deals` table and the `users` balance table
(an association list keyed by `user_id`, insertion order preserved;
`user_id` is a primary key). -/
structure BotState where
  deals : List Deal
  balances : List (Int × Rat)
deriving DecidableEq

/-- `SELECT balance FROM users WHERE user_id = ?` — first row's balance. -/
def lookupBal : List (Int × Rat) → Int → Option Rat
  | [], _ => none
  | (k, v) :: rest, u => if k = u then some v else lookupBal rest u

/-- `get_user_balance` (`main.py` lines 78–84): the stored balance, or
0.0 when the user row is absent. -/
def get_user_balance (st : BotState) (u : Int) : Rat :=
  (lookupBal st.balances u).getD 0

/-- `UPDATE users SET balance = balance + ? WHERE user_id = ?`. -/
def bumpBal (u : Int) (delta : Rat) : List (Int × Rat) → List (Int × Rat)
  | [] => []
  | (k, v) :: rest =>
    (k, if k = u then v + delta else v) :: bumpBal u delta rest

/-- `create_user_if_not_exists` (`main.py` lines 71–76):
`INSERT OR IGNORE` of a zero-balance row. -/
def create_user_if_not_exists (u : Int) (st : BotState) : BotState :=
  if (lookupBal st.balances u).isSome then st
  else { st with balances := st.balances ++ [(u, 0)] }

/-- `change_user_balance` (`main.py` lines 86–92): ensure the row exists,
then add `delta` to it. -/
def change_user_balance (u : Int) (delta : Rat) (st : BotState) : BotState :=
  let st1 := create_user_if_not_exists u st
  { st1 with balances := bumpBal u delta st1.balances }

/-- `get_deal_from_db` (`main.py` lines 134–147): the row keyed by id. -/
def get_deal_from_db (st : BotState) (dealId : String) : Option Deal :=
  st.deals.find? (fun d => d.id = dealId)

/-- The field rewrite performed by one `update_deal_status` call
(`main.py` lines 105–132) on the matching row: `status` always written;
`paid_tx`, `buyer_id`, `nft_received`, `seller_received` written only
when the argument is not `None`; `completed_at` stamped when the new
status is `completed` or `done`. No current-status precondition exists. -/
def applyStatusUpdate (status : String) (paid_tx : Option String)
    (buyer_id : Option Int) (nft : Option Bool) (seller : Option Bool)
    (now : String) (d : Deal) : Deal :=
  { d with
    status := status,
    paid_tx := match paid_tx with | some p => some p | none => d.paid_tx,
    buyer_id := match buyer_id with | some b => some b | none => d.buyer_id,
    nft_received := nft.getD d.nft_received,
    seller_received := seller.getD d.seller_received,
    completed_at :=
      if status = "completed" ∨ status = "done" then some now
      else d.completed_at }

/-- `update_deal_status` (`main.py` lines 105–132): unconditional
`UPDATE deals SET ... WHERE id = ?`. `now` is the `datetime.utcnow()`
instant used for `completed_at`. -/
def update_deal_status (dealId status : String) (paid_tx : Option String)
    (buyer_id : Option Int) (nft : Option Bool) (seller : Option Bool)
    (now : String) (st : BotState) : BotState :=
  { st with deals := st.deals.map (fun d =>
      if d.id = dealId then
        applyStatusUpdate status paid_tx buyer_id nft seller now d
      else d) }

/-- The candidate filter of `list_waiting_deals` (`main.py` lines
157–164): `status = 'waiting_nft' OR status = 'waiting_payment'`.
(`waiting_nft` is the creation status, the spec's `open`; note that
`paid_pending` is NOT selected.) -/
def isWaitingStatus (d : Deal) : Bool :=
  d.status = "waiting_nft" || d.status = "waiting_payment"

/-- `list_waiting_deals` (`main.py` lines 157–164). -/
def list_waiting_deals (st : BotState) : List Deal :=
  st.deals.filter isWaitingStatus

/-- `cb_confirm` (`main.py` lines 539–551): the seller's manual
"received" confirmation. Besides existence and the creator check, no
precondition on the current status is applied. -/
def cb_confirm (fromUser : Int) (dealId : String) (now : String)
    (st : BotState) : BotState :=
  match get_deal_from_db st dealId with
  | none => st
  | some deal =>
    if fromUser ≠ deal.creator_id then st
    else update_deal_status dealId "completed" deal.paid_tx deal.buyer_id
      (some true) (some true) now st

/-- `cb_cancel` (`main.py` lines 553–565): the seller's manual
cancellation; only existence and the creator check guard it. -/
def cb_cancel (fromUser : Int) (dealId : String) (now : String)
    (st : BotState) : BotState :=
  match get_deal_from_db st dealId with
  | none => st
  | some deal =>
    if fromUser ≠ deal.creator_id then st
    else update_deal_status dealId "cancelled" none none none none now st

/-- `cb_paid_ext` (`main.py` lines 500–514): the buyer marks an external
payment; writes `paid_pending` whatever the current status is. -/
def cb_paid_ext (fromUser : Int) (dealId : String) (now : String)
    (st : BotState) : BotState :=
  match get_deal_from_db st dealId with
  | none => st
  | some _ =>
    update_deal_status dealId "paid_pending" none (some fromUser)
      none none now st

/-- `cb_pay_bal` (`main.py` lines 516–532): pay from internal balance.
When the buyer's balance is below the deal amount the handler answers an
alert and returns before any mutation. -/
def cb_pay_bal (fromUser : Int) (dealId : String) (now : String)
    (st : BotState) : BotState :=
  match get_deal_from_db st dealId with
  | none => st
  | some deal =>
    if get_user_balance st fromUser < deal.amount then st
    else
      let st1 := change_user_balance fromUser (-deal.amount) st
      let st2 := change_user_balance deal.creator_id deal.amount st1
      update_deal_status dealId "completed" (some "internal_balance")
        (some fromUser) (some true) (some true) now st2

/-- The completion block of `periodic_ton_checker` (`main.py` lines
365–381) for one matched deal: status update, then the balance credit
(its own `try/except: pass`), then the fire-and-forget notification
(its own `try/except: pass`, and no database access at all). The
returned flag records whether the notification was enqueued; it is the
only thing the notification step can influence. -/
def poll_complete_deal (deal : Deal) (txHash : Option String) (now : String)
    (notifyOk : Bool) (st : BotState) : BotState × Bool :=
  let st1 := update_deal_status deal.id "completed" txHash none
    (some true) (some true) now st
  let st2 := change_user_balance deal.creator_id deal.amount st1
  (st2, notifyOk)

/-! ## Concrete instances used by the theorems below -/

/-- A deal-amount-100 memo-bearing transaction of amount 5, the spec's
memo-priority instance. -/
def txMemo5 : Tx :=
  { hash := some "h", sender := none, recipient := none, amount := some 5,
    message := some (JsonV.str "paid for deal42"), unix_time := none }

/-- A one-field raw record carrying only a hash. -/
def recHashOnly : JsonV := JsonV.obj [("hash", JsonV.str "h1")]

/-- Its normalized form. -/
def txHashOnly : Tx :=
  { hash := some "h1", sender := none, recipient := none, amount := none,
    message := none, unix_time := none }

/-- A raw record whose value field is nine orders of magnitude above the
deal scale: 5 TON expressed in nanotons. -/
def recNano : JsonV :=
  JsonV.obj [("hash", JsonV.str "t1"), ("value", JsonV.num 5000000000),
             ("utime", JsonV.num 100)]

/-- Its normalized form: the amount is kept raw, not divided. -/
def txNano : Tx :=
  { hash := some "t1", sender := none, recipient := none,
    amount := some 5000000000, message := none, unix_time := some 100 }

/-- A provider envelope with the list under `"result"`. -/
def envResult : JsonV := JsonV.obj [("result", JsonV.arr [JsonV.num 1])]

/-- A raw record with an amount but none of the five id fields. -/
def recNoHash : JsonV := JsonV.obj [("value", JsonV.num 7)]

/-- Its normalized form: emitted with `hash = none`. -/
def txNoHash : Tx :=
  { hash := none, sender := none, recipient := none, amount := some 7,
    message := none, unix_time := none }

/-- A cancelled (terminal) deal and a store holding only it. -/
def dealCancelled : Deal :=
  { id := "d1", creator_id := 1, wallet := "w", amount := 10,
    description := "x", memo := "d1", status := "cancelled",
    created_at := "t0", paid_tx := none, buyer_id := none,
    nft_received := false, seller_received := false, completed_at := none }

def stCancelled : BotState := { deals := [dealCancelled], balances := [] }

/-- A completed (terminal) deal and a store holding only it. -/
def dealCompleted : Deal :=
  { id := "d2", creator_id := 2, wallet := "w", amount := 25,
    description := "y", memo := "d2", status := "completed",
    created_at := "t0", paid_tx := some "tx0", buyer_id := none,
    nft_received := true, seller_received := true,
    completed_at := some "t0" }

def stCompleted : BotState := { deals := [dealCompleted], balances := [] }

/-- A deal stuck in `paid_pending` and a waiting one, in one store. -/
def dealPaidPending : Deal :=
  { id := "pp", creator_id := 3, wallet := "w", amount := 8,
    description := "z", memo := "pp", status := "paid_pending",
    created_at := "t0", paid_tx := none, buyer_id := some 7,
    nft_received := false, seller_received := false, completed_at := none }

def dealWaiting : Deal :=
  { id := "wn", creator_id := 3, wallet := "w", amount := 8,
    description := "z", memo := "wn", status := "waiting_nft",
    created_at := "t0", paid_tx := none, buyer_id := none,
    nft_received := false, seller_received := false, completed_at := none }

def stMixed : BotState :=
  { deals := [dealPaidPending, dealWaiting, dealCompleted], balances := [] }

/-- The matched waiting deal completed by the poll cycle in the witness. -/
def dealPollDone : Deal :=
  { dealWaiting with
    status := "completed"
    paid_tx := some "tx9"
    nft_received := true
    seller_received := true
    completed_at := some "t1" }

def stPoll : BotState := { deals := [dealWaiting], balances := [(3, 1)] }

/-- A store where buyer 7 holds 4 against a 8-TON deal. -/
def stPoor : BotState := { deals := [dealWaiting], balances := [(7, 4)] }

/-! ## Helper lemmas -/

theorem find?_of_exists {α : Type} (p : α → Bool) (l : List α)
    (h : ∃ x ∈ l, p x = true) : ∃ y, l.find? p = some y ∧ p y = true := by
  induction l with
  | nil => obtain ⟨x, hx, _⟩ := h; cases hx
  | cons a t ih =>
    by_cases hpa : p a = true
    · exact ⟨a, by simp [List.find?, hpa], hpa⟩
    · obtain ⟨x, hx, hpx⟩ := h
      rcases List.mem_cons.mp hx with rfl | hxt
      · exact absurd hpx hpa
      · obtain ⟨y, hy, hpy⟩ := ih ⟨x, hxt, hpx⟩
        refine ⟨y, ?_, hpy⟩
        simpa [List.find?, Bool.of_not_eq_true hpa] using hy

/-! ## Numbered claims: fetcher, normalizer and matcher -/

/-- C3: if some transaction's memo text contains the deal's id as a
substring, `check_payment_for_deal` returns such a transaction, whatever
its amount and timestamp (the memo scan runs before either amount tier
and inspects only the message field). -/
theorem memo_match_wins (dealId : String) (dealAmount : Rat)
    (createdUnix : Int) (txs : List Tx)
    (h : ∃ tx ∈ txs, memoHit dealId tx = true) :
    ∃ tx, check_payment_match dealId dealAmount createdUnix txs = some tx
      ∧ memoHit dealId tx = true := by
  obtain ⟨y, hy, hpy⟩ := find?_of_exists (memoHit dealId) txs h
  exact ⟨y, by simp [check_payment_match, hy], hpy⟩

/-- Witness for C3: deal amount 100, transaction amount 5 with the deal
id in its memo — the matcher returns it. -/
theorem memo_match_wins_witness :
    ∃ tx, check_payment_match "deal42" 100 0 [txMemo5] = some tx
      ∧ memoHit "deal42" tx = true :=
  memo_match_wins "deal42" 100 0 [txMemo5]
    ⟨txMemo5, List.mem_singleton.mpr rfl, by decide⟩

/-- Counterexample to C5: a response with non-success status 500 whose
body parses to a one-record list is processed normally and yields a
nonempty result — a non-success status alone does not produce the empty
list. -/
theorem fetch_nonsuccess_counterexample :
    fetch_transactions_for_address
        (FetchOutcome.response 500 (some (JsonV.arr [recHashOnly])))
      = [txHashOnly]
    ∧ (500 : Nat) ≠ 200
    ∧ ([txHashOnly] : List Tx) ≠ [] :=
  ⟨rfl, by decide, fun h => List.noConfusion h⟩

/-- C5 amended: the fetcher never raises (it is a total function of the
HTTP outcome); a network error or an unparsable body yields the empty
list; the status code is otherwise ignored — a response body is
processed identically whatever the status, so a non-success status with
a parsable body is handled like a success. -/
theorem fetch_error_empty_amended :
    fetch_transactions_for_address FetchOutcome.netError = []
    ∧ (∀ s : Nat,
        fetch_transactions_for_address (FetchOutcome.response s none) = [])
    ∧ (∀ (s s' : Nat) (b : Option JsonV),
        fetch_transactions_for_address (FetchOutcome.response s b)
          = fetch_transactions_for_address (FetchOutcome.response s' b)) := by
  refine ⟨rfl, fun s => rfl, fun s s' b => ?_⟩
  cases b <;> rfl

/-- Counterexample to C6: the raw value 5·10⁹ exceeds the claimed 10⁶
threshold, yet normalization emits it unchanged instead of the
major-unit amount 5 = 5·10⁹/10⁹ — no minor-unit division happens. -/
theorem scale_detection_counterexample :
    (normalizeRecord recNano).bind Tx.amount = some 5000000000
    ∧ (5000000000 : Rat) > 10 ^ 6
    ∧ (5000000000 : Rat) / 10 ^ 9 = 5
    ∧ (normalizeRecord recNano).bind Tx.amount
        ≠ some ((5000000000 : Rat) / 10 ^ 9) := by
  refine ⟨rfl, by norm_num, by norm_num, ?_⟩
  rw [show ((5000000000 : Rat) / 10 ^ 9) = 5 by norm_num]
  decide

/-- C6 amended: no unit-scale detection exists. For every nonzero raw
numeric value, whatever its magnitude, the normalized amount is exactly
that value; and the matcher compares the transaction amount to the deal
amount directly with `≥` and no scale divisors — the nanoton-scale
transaction above matches deal amount 10 unscaled (even though its
major-unit value 5 would not). -/
theorem no_scale_normalization_amended :
    (∀ q : Rat, q ≠ 0 →
      (normalizeRecord
          (JsonV.obj [("hash", JsonV.str "h"), ("value", JsonV.num q)])).bind
        Tx.amount = some q)
    ∧ check_payment_match "d" 10 0 [txNano] = some txNano := by
  constructor
  · intro q hq
    simp [normalizeRecord, getKey, pyOrs, pyOr, truthyOpt, truthy,
      amountVal, pyFloat, hq]
  · rfl

/-- Witness for C6 amended: the nonzero-value hypothesis discharged at
the raw value 5·10⁹. -/
theorem no_scale_normalization_amended_witness :
    (normalizeRecord
        (JsonV.obj [("hash", JsonV.str "h"),
                    ("value", JsonV.num 5000000000)])).bind Tx.amount
      = some 5000000000 :=
  no_scale_normalization_amended.1 5000000000 (by norm_num)

/-- C7: whenever probing the envelope in the spec's order — top-level
list, then the `"result"` key, then the provider-specific
`"transactions"` key — finds a list, the code's parser uses exactly that
list. (The code tests the dict keys before the top-level-list shape, but
a value cannot be both a list and a dict, so the two orders select the
same list on every input; the code additionally falls back to the first
list-valued field of an otherwise unrecognized dict.) -/
theorem envelope_probe_order (data : JsonV) (l : List JsonV)
    (h : specEnvelopeProbe data = some l) : extractItems data = l := by
  cases data with
  | bool b => simp [specEnvelopeProbe] at h
  | num q => simp [specEnvelopeProbe] at h
  | str s => simp [specEnvelopeProbe] at h
  | arr l' => simpa [specEnvelopeProbe, extractItems] using h
  | obj fields =>
    simp only [specEnvelopeProbe, extractItems] at h ⊢
    rcases hr : getKey fields "result" with _ | (b | q | s | lr | o) <;>
      rcases ht : getKey fields "transactions" with _ | (b2 | q2 | s2 | lt | o2) <;>
      simp_all

/-- Witness for C7 at a concrete `"result"` envelope. -/
theorem envelope_probe_order_witness :
    specEnvelopeProbe envResult = some [JsonV.num 1]
    ∧ extractItems envResult = [JsonV.num 1] :=
  ⟨rfl, envelope_probe_order envResult [JsonV.num 1] rfl⟩

/-- Counterexample to C8: a record from which no hash can be extracted is
NOT dropped — it appears in the normalizer's output as a transaction
with `hash = none`. -/
theorem hashless_record_kept_counterexample :
    normalizeRecord recNoHash = some txNoHash
    ∧ txNoHash.hash = none
    ∧ fetch_transactions_for_address
        (FetchOutcome.response 200 (some (JsonV.arr [recNoHash])))
      = [txNoHash] :=
  ⟨rfl, rfl, rfl⟩

/-- C8 amended: a record whose field extraction raises — for instance
any non-dict record — is dropped while the rest of the batch is still
processed; a dict record with no extractable hash is not dropped but
emitted with a null hash. -/
theorem record_drop_amended :
    (∀ (q : Rat) (rest : List JsonV),
      (JsonV.num q :: rest).filterMap normalizeRecord
        = rest.filterMap normalizeRecord)
    ∧ normalizeRecord (JsonV.num 7) = none
    ∧ normalizeRecord recNoHash = some txNoHash
    ∧ txNoHash.hash = none := by
  refine ⟨fun q rest => ?_, rfl, rfl, rfl⟩
  simp [List.filterMap_cons, show normalizeRecord (JsonV.num q) = none from rfl]

/-! ## Helper lemmas for the deal store -/

theorem applyStatusUpdate_id (status : String) (pt : Option String)
    (b : Option Int) (n sr : Option Bool) (now : String) (d : Deal) :
    (applyStatusUpdate status pt b n sr now d).id = d.id := rfl

theorem find?_map_update (l : List Deal) (dealId : String) (f : Deal → Deal)
    (hf : ∀ d, (f d).id = d.id) :
    (l.map (fun d => if d.id = dealId then f d else d)).find?
        (fun d => d.id = dealId)
      = (l.find? (fun d => d.id = dealId)).map f := by
  induction l with
  | nil => rfl
  | cons a t ih =>
    by_cases ha : a.id = dealId
    · simp [List.find?_cons, ha, hf]
    · simp [List.find?_cons, ha, ih]

theorem get_deal_from_db_update (st : BotState) (dealId status : String)
    (pt : Option String) (b : Option Int) (n sr : Option Bool) (now : String) :
    get_deal_from_db (update_deal_status dealId status pt b n sr now st) dealId
      = (get_deal_from_db st dealId).map
          (applyStatusUpdate status pt b n sr now) := by
  unfold get_deal_from_db update_deal_status
  exact find?_map_update st.deals dealId _ (fun d => rfl)

theorem lookupBal_bump (u : Int) (delta : Rat) (l : List (Int × Rat)) :
    lookupBal (bumpBal u delta l) u
      = (lookupBal l u).map (fun v => v + delta) := by
  induction l with
  | nil => rfl
  | cons a t ih =>
    rcases a with ⟨k, v⟩
    by_cases hk : k = u
    · simp [bumpBal, lookupBal, hk]
    · simp [bumpBal, lookupBal, hk, ih]

theorem lookupBal_append_fresh (u : Int) (l : List (Int × Rat))
    (h : lookupBal l u = none) : lookupBal (l ++ [(u, 0)]) u = some 0 := by
  induction l with
  | nil => simp [lookupBal]
  | cons a t ih =>
    rcases a with ⟨k, v⟩
    by_cases hk : k = u
    · simp [lookupBal, hk] at h
    · simp only [List.cons_append, lookupBal, if_neg hk] at h ⊢
      exact ih h

theorem get_user_balance_change (st : BotState) (u : Int) (delta : Rat) :
    get_user_balance (change_user_balance u delta st) u
      = get_user_balance st u + delta := by
  unfold change_user_balance create_user_if_not_exists get_user_balance
  rcases hl : lookupBal st.balances u with _ | v
  · simp [hl, lookupBal_bump, lookupBal_append_fresh u st.balances hl]
  · simp [hl, lookupBal_bump]

theorem change_user_balance_deals (u : Int) (delta : Rat) (st : BotState) :
    (change_user_balance u delta st).deals = st.deals := by
  unfold change_user_balance create_user_if_not_exists
  split <;> rfl

/-! ## Numbered claims: deal store, handlers and poll cycle -/

/-- Counterexample to C1: the completion handler applies no
compare-and-swap on status — invoked by the creator on an already
cancelled deal it changes the store, rewriting the deal to
`completed`. -/
theorem confirm_terminal_counterexample :
    dealCancelled.status = "cancelled"
    ∧ cb_confirm 1 "d1" "t1" stCancelled ≠ stCancelled
    ∧ (get_deal_from_db (cb_confirm 1 "d1" "t1" stCancelled) "d1").map
        Deal.status = some "completed" := by
  refine ⟨rfl, ?_, rfl⟩
  decide

/-- C1 amended: no status precondition guards completion. The automatic
poll path cannot complete (or re-credit) a terminal deal only because
the candidate query excludes `completed` and `cancelled`; the manual
confirm handler, by contrast, rewrites any existing deal of its creator
to `completed` whatever the current status. -/
theorem completion_guard_amended :
    (∀ d : Deal, d.status = "completed" ∨ d.status = "cancelled" →
      isWaitingStatus d = false)
    ∧ (∀ (st : BotState) (u : Int) (dealId now : String) (deal : Deal),
        get_deal_from_db st dealId = some deal → u = deal.creator_id →
        (get_deal_from_db (cb_confirm u dealId now st) dealId).map
          Deal.status = some "completed") := by
  constructor
  · intro d h
    rcases h with h | h <;> simp [isWaitingStatus, h]
  · intro st u dealId now deal hfind hu
    subst hu
    unfold cb_confirm
    simp only [hfind, ne_eq, not_true_eq_false, if_neg, ite_false,
      not_false_eq_true, get_deal_from_db_update]
    rfl

/-- Witness for C1 amended: a cancelled deal is not a poll candidate,
and confirming a concrete open deal completes it. -/
theorem completion_guard_amended_witness :
    isWaitingStatus dealCancelled = false
    ∧ (get_deal_from_db (cb_confirm 1 "d1" "t1" stCancelled) "d1").map
        Deal.status = some "completed" :=
  ⟨completion_guard_amended.1 dealCancelled (Or.inr rfl),
   completion_guard_amended.2 stCancelled 1 "d1" "t1" dealCancelled rfl rfl⟩

/-- Counterexample to C2: `completed` is not immutable — the buyer's
external-payment mark moves a completed deal back to `paid_pending`, a
regression out of a terminal state. -/
theorem terminal_regression_counterexample :
    (get_deal_from_db stCompleted "d2").map Deal.status = some "completed"
    ∧ (get_deal_from_db (cb_paid_ext 7 "d2" "t2" stCompleted) "d2").map
        Deal.status = some "paid_pending"
    ∧ ("paid_pending" : String) ≠ "completed" :=
  ⟨rfl, rfl, by decide⟩

/-- C2 amended: status transitions are unguarded. Each handler writes
its target status to the deal unconditionally — the external-payment
mark writes `paid_pending` and the creator's cancel writes `cancelled`
whatever the current status, terminal included; only the automatic poll
path respects terminality, because terminal deals are excluded from its
candidate set. -/
theorem status_transitions_amended :
    (∀ d : Deal, d.status = "completed" ∨ d.status = "cancelled" →
      isWaitingStatus d = false)
    ∧ (∀ (st : BotState) (u : Int) (dealId now : String) (deal : Deal),
        get_deal_from_db st dealId = some deal →
        (get_deal_from_db (cb_paid_ext u dealId now st) dealId).map
          Deal.status = some "paid_pending")
    ∧ (∀ (st : BotState) (dealId now : String) (deal : Deal),
        get_deal_from_db st dealId = some deal →
        (get_deal_from_db (cb_cancel deal.creator_id dealId now st)
            dealId).map Deal.status = some "cancelled") := by
  refine ⟨?_, ?_, ?_⟩
  · intro d h
    rcases h with h | h <;> simp [isWaitingStatus, h]
  · intro st u dealId now deal hfind
    unfold cb_paid_ext
    simp only [hfind, get_deal_from_db_update]
    rfl
  · intro st dealId now deal hfind
    unfold cb_cancel
    simp only [hfind, ne_eq, not_true_eq_false, if_neg, ite_false,
      not_false_eq_true, get_deal_from_db_update]
    rfl

/-- Witness for C2 amended at the completed deal: not a poll candidate,
regressed to `paid_pending` by the external-payment mark, cancelled by
its creator. -/
theorem status_transitions_amended_witness :
    isWaitingStatus dealCompleted = false
    ∧ (get_deal_from_db (cb_paid_ext 7 "d2" "t2" stCompleted) "d2").map
        Deal.status = some "paid_pending"
    ∧ (get_deal_from_db (cb_cancel dealCompleted.creator_id "d2" "t2"
          stCompleted) "d2").map Deal.status = some "cancelled" :=
  ⟨status_transitions_amended.1 dealCompleted (Or.inl rfl),
   status_transitions_amended.2.1 stCompleted 7 "d2" "t2" dealCompleted rfl,
   status_transitions_amended.2.2 stCompleted "d2" "t2" dealCompleted rfl⟩

/-- C4: evaluation of the candidate filter. Deals in terminal statuses
are indeed never selected (second and third conjuncts), and deals in the
creation status `waiting_nft` — the spec's `open` — are; but a deal in
`paid_pending` is NOT selected either: the query keeps only
`waiting_nft`/`waiting_payment`, so a `paid_pending` deal never reaches
the matcher, contradicting the in-code promise of automatic closing
after the buyer's mark. -/
theorem waiting_candidates_evaluation :
    (∀ (st : BotState) (d : Deal), d ∈ st.deals →
      d.status = "waiting_nft" → d ∈ list_waiting_deals st)
    ∧ (∀ (st : BotState) (d : Deal), d ∈ st.deals →
      d.status = "paid_pending" → d ∉ list_waiting_deals st)
    ∧ (∀ d : Deal, d.status = "completed" ∨ d.status = "cancelled" →
      isWaitingStatus d = false) := by
  refine ⟨?_, ?_, ?_⟩
  · intro st d hmem hs
    exact List.mem_filter.mpr ⟨hmem, by simp [isWaitingStatus, hs]⟩
  · intro st d hmem hs hin
    have h2 := (List.mem_filter.mp hin).2
    simp [isWaitingStatus, hs] at h2
  · intro d h
    rcases h with h | h <;> simp [isWaitingStatus, h]

/-- Witness for C4: in the concrete mixed store the waiting deal is a
candidate, the `paid_pending` one is not, and the completed one has a
non-waiting status. -/
theorem waiting_candidates_evaluation_witness :
    dealWaiting ∈ list_waiting_deals stMixed
    ∧ dealPaidPending ∉ list_waiting_deals stMixed
    ∧ isWaitingStatus dealCompleted = false :=
  ⟨waiting_candidates_evaluation.1 stMixed dealWaiting (by decide) rfl,
   waiting_candidates_evaluation.2.1 stMixed dealPaidPending (by decide) rfl,
   waiting_candidates_evaluation.2.2 dealCompleted (Or.inl rfl)⟩

/-- C9: the notification outcome cannot influence the store — the poll
completion yields the same state whether or not the notification is
delivered (no rollback of the status update or the balance credit), the
creator's balance ends credited by exactly the deal amount, and every
deal under the completed id ends in status `completed`. The whole block
is a total function, so a notification failure cannot abort the poll
cycle either. -/
theorem poll_notify_no_rollback (deal : Deal) (txHash : Option String)
    (now : String) (st : BotState) (ok₁ ok₂ : Bool) :
    (poll_complete_deal deal txHash now ok₁ st).1
      = (poll_complete_deal deal txHash now ok₂ st).1
    ∧ get_user_balance (poll_complete_deal deal txHash now ok₁ st).1
        deal.creator_id = get_user_balance st deal.creator_id + deal.amount
    ∧ ∀ d' ∈ (poll_complete_deal deal txHash now ok₁ st).1.deals,
        d'.id = deal.id → d'.status = "completed" := by
  refine ⟨rfl, ?_, ?_⟩
  · show get_user_balance (change_user_balance deal.creator_id deal.amount
        (update_deal_status deal.id "completed" txHash none (some true)
          (some true) now st)) deal.creator_id = _
    rw [get_user_balance_change]
    rfl
  · intro d' hd' hid
    rw [show (poll_complete_deal deal txHash now ok₁ st).1.deals
          = (update_deal_status deal.id "completed" txHash none (some true)
              (some true) now st).deals
        from change_user_balance_deals _ _ _] at hd'
    simp only [update_deal_status] at hd'
    obtain ⟨d, hd, rfl⟩ := List.mem_map.mp hd'
    by_cases h : d.id = deal.id
    · simp [h, applyStatusUpdate]
    · rw [if_neg h] at hid
      exact absurd hid h

/-- Witness for C9 at a concrete store: after completion with a FAILED
notification the creator's balance is credited and the deal is
completed. -/
theorem poll_notify_no_rollback_witness :
    get_user_balance (poll_complete_deal dealWaiting (some "tx9") "t1"
        false stPoll).1 dealWaiting.creator_id
      = get_user_balance stPoll dealWaiting.creator_id + dealWaiting.amount
    ∧ dealPollDone.status = "completed" :=
  ⟨(poll_notify_no_rollback dealWaiting (some "tx9") "t1" stPoll
      false true).2.1,
   (poll_notify_no_rollback dealWaiting (some "tx9") "t1" stPoll
      false true).2.2 dealPollDone (by decide) rfl⟩

/-- C10: a pay-from-balance request by a buyer whose balance is strictly
below the deal amount returns before any mutation — the store (every
balance and every deal) is exactly unchanged. -/
theorem cb_pay_bal_insufficient (st : BotState) (buyer : Int)
    (dealId now : String) (deal : Deal)
    (hfind : get_deal_from_db st dealId = some deal)
    (hbal : get_user_balance st buyer < deal.amount) :
    cb_pay_bal buyer dealId now st = st := by
  unfold cb_pay_bal
  simp only [hfind]
  simp [hbal]

/-- Witness for C10: balance 4 < amount 8, so the handler is the
identity on the concrete store. -/
theorem cb_pay_bal_insufficient_witness :
    cb_pay_bal 7 "wn" "t1" stPoor = stPoor :=
  cb_pay_bal_insufficient stPoor 7 "wn" "t1" dealWaiting rfl (by decide)
